import Mathlib

/-!
Verification of the pidim-smart-starter reporting dashboard frontend.

The source is a React single-file app (`src/frontend/src/App.jsx`, and an
extended variant with a month filter in `src/unnamed/part_000`).  We give a
shallow embedding of its pure logic: JavaScript values restricted to the
domain actually flowing through this app (undefined, null, numbers, strings;
numbers are modelled as integers — the spec pins down no numeric/locale
policy), report rows as association lists, the `DataTable` component's totals
and row-styling computation, the chart projections, the fixed-reports loader,
and the loan month-filter state machine.  Formatter output
(`toLocaleString`) is locale-dependent display text and is not modelled;
cells carry the pre-format values.
-/

namespace PidimSmart

/-- JavaScript values as they occur in this app's data: JSON rows hold
numbers and strings; `undefined` arises from missing fields and `null` from
explicit nulls / the `loanCustomRows` initial state.  Numbers are modelled
as integers (`Int`); `NaN` is represented where it arises as `Option.none`
of a coercion result, never as a stored row value (JSON has no NaN). -/
inductive JsVal where
  | vUndef : JsVal
  | vNull : JsVal
  | vNum (n : Int) : JsVal
  | vStr (s : String) : JsVal
deriving DecidableEq, Repr

/-- A report row: a mapping from field name to value (`spec.md` §3).
Modelled as an association list; `getField` returns `undefined` for a
missing key, as JS property access does. -/
abbrev Row : Type := List (String × JsVal)

/-- JS property read `r[k]`: the value under the first matching key,
`undefined` when absent. -/
def getField (r : Row) (k : String) : JsVal :=
  match (List.find? (fun p => p.1 == k) r) with
  | some p => p.2
  | none => JsVal.vUndef

/-- `typeof v === 'number'`. -/
def isNumber : JsVal → Bool
  | JsVal.vNum _ => true
  | _ => false

/-- JS truthiness of a value (`if(x)`, `x && y`): `undefined`, `null`,
`0` and `""` are falsy; everything else in the modelled domain is truthy. -/
def truthy : JsVal → Bool
  | JsVal.vUndef => false
  | JsVal.vNull => false
  | JsVal.vNum n => n != 0
  | JsVal.vStr s => s != ""

/-- JS `a || b`: `a` when truthy, else `b`. -/
def jsOr (a b : JsVal) : JsVal := if truthy a then a else b

/-- Accumulating decimal parse of a character list; `none` on the first
non-digit character. -/
def digitsToNat (acc : Nat) : List Char → Option Nat
  | [] => some acc
  | c :: rest =>
    if c.isDigit then digitsToNat (acc * 10 + (c.toNat - '0'.toNat)) rest
    else none

/-- Parse of a (nonempty) integer numeral with an optional leading minus. -/
def parseIntChars : List Char → Option Int
  | [] => none
  | '-' :: [] => none
  | '-' :: rest => (digitsToNat 0 rest).map (fun n => -(n : Int))
  | cs => (digitsToNat 0 cs).map (fun n => (n : Int))

/-- `Number(s)` on a string, restricted to the integer-string domain of this
app's data: the empty string converts to `0`, an integer numeral to its
value, anything else to NaN (`none`).  Decimal, hex and padded forms are
outside the modelled value domain. -/
def jsStrToNumber (s : String) : Option Int :=
  if s = "" then some 0 else parseIntChars s.data

/-- `Number(v)`: numbers pass through, `null` is `0`, `undefined` is NaN
(`none`), strings convert per `jsStrToNumber`. -/
def jsNumber : JsVal → Option Int
  | JsVal.vUndef => none
  | JsVal.vNull => some 0
  | JsVal.vNum n => some n
  | JsVal.vStr s => jsStrToNumber s

/-- `Number(v) || 0`: the conversion with NaN (and `0` itself) collapsed
to `0`. -/
def numOr0 (v : JsVal) : Int := (jsNumber v).getD 0

/-- `String(v)` in the modelled domain. -/
def jsToString : JsVal → String
  | JsVal.vUndef => "undefined"
  | JsVal.vNull => "null"
  | JsVal.vNum n => toString n
  | JsVal.vStr s => s

/-- `s.endsWith(suffix)`, modelled on the character sequences. -/
def jsEndsWith (s suffix : String) : Bool :=
  List.isSuffixOf suffix.data s.data

/-! ### DataTable (`src/unnamed/part_000` lines 15-52, `src/frontend/src/App.jsx` lines 15-51)

The two versions are identical except that `part_000` adds a
`showFooterTotals` prop defaulting to `true`; the `App.jsx` version behaves
like the `part_000` one with the flag `true`, so a single embedding with the
flag covers both. -/

/-- A column descriptor as passed to `DataTable`:
`{key, header, total:true?, format:NumberFmt?}`.  The formatter renders a
locale-dependent display string and is recorded only as a presence flag;
rendered cells carry the pre-format values. -/
structure Column where
  key : String
  header : String
  total : Bool := false
  hasFormat : Bool := false
deriving DecidableEq, Repr

/-- `rows.reduce((s,r)=> s + (Number(r[c.key])||0), 0)`: the column sum,
with each missing or non-numeric value contributing 0. -/
def sumColumn (rows : List Row) (k : String) : Int :=
  List.foldl (fun s r => s + numOr0 (getField r k)) 0 rows

/-- The `totals` object of `DataTable` (lines 17-25): for each column with
`c.total` set and `typeof rows[0][c.key] === 'number'`, an entry mapping
`c.key` to the column sum.  `rows` is nonempty at every call site (the
component returns early on empty rows); on `[]` no entry is produced,
matching `rows[0][c.key]` being `undefined` and so never a number. -/
def computeTotals (rows : List Row) (columns : List Column) : List (String × Int) :=
  match rows with
  | [] => []
  | r0 :: _ =>
    List.filterMap (fun c =>
      if c.total && isNumber (getField r0 c.key) then
        some (c.key, sumColumn rows c.key)
      else none) columns

/-- The inline style of a body row (line 37 of `part_000`, line 36 of
`App.jsx`): background `#fffbe6` when `String(r['Branch Name'])` ends with
`" Total"`, else `#dcfce7` when `r['Branch Name'] === 'Grand Total'`, else
none; font weight 800 exactly when `r['Branch Name'] === 'Grand Total'`. -/
structure RowStyle where
  background : Option String
  fontWeight : Option Nat
deriving DecidableEq, Repr

def rowStyle (r : Row) : RowStyle :=
  { background :=
      if jsEndsWith (jsToString (getField r "Branch Name")) " Total" then
        some "#fffbe6"
      else if getField r "Branch Name" = JsVal.vStr "Grand Total" then
        some "#dcfce7"
      else none,
    fontWeight :=
      if getField r "Branch Name" = JsVal.vStr "Grand Total" then some 800
      else none }

/-- A footer cell (line 45): `''` for a column without the `total` flag, and
`totals[c.key]` for a flagged one — `none` inside `val` models the lookup
coming back `undefined`.  The optional formatter applied for display is not
modelled; the cell carries the pre-format value. -/
inductive FooterCell where
  | blank : FooterCell
  | val (v : Option Int) : FooterCell
deriving DecidableEq, Repr

/-- The footer row's cells, one per column. -/
def footerCells (totals : List (String × Int)) (columns : List Column) :
    List FooterCell :=
  columns.map fun c =>
    if c.total then FooterCell.val (List.lookup c.key totals) else FooterCell.blank

/-- A rendered body row: its inline style and the raw per-column values
(`c.format ? c.format(r[c.key]) : r[c.key]` — values pre-formatting). -/
structure RenderedRow where
  style : RowStyle
  cells : List JsVal
deriving DecidableEq, Repr

/-- The rendered output of `DataTable`: the "No data" placeholder, or a
table with a body and an optional totals footer. -/
inductive TableView where
  | noData : TableView
  | table (body : List RenderedRow) (footer : Option (List FooterCell)) : TableView
deriving DecidableEq, Repr

/-- `DataTable({rows, columns, showFooterTotals})`: early "No data" return
when `rows` is empty (`!rows?.length`), otherwise the body rows with their
styles and a footer rendered exactly when `showFooterTotals` is set and the
`totals` object is nonempty (`Object.keys(totals).length`). -/
def renderDataTable (rows : List Row) (columns : List Column)
    (showFooterTotals : Bool) : TableView :=
  if rows.isEmpty then TableView.noData
  else
    TableView.table
      (rows.map fun r =>
        { style := rowStyle r, cells := columns.map fun c => getField r c.key })
      (if showFooterTotals && !(computeTotals rows columns).isEmpty then
        some (footerCells (computeTotals rows columns) columns)
      else none)

/-- The footer of a rendered view (`none` for the placeholder, which has no
table at all). -/
def viewFooter : TableView → Option (List FooterCell)
  | TableView.noData => none
  | TableView.table _ f => f

/-! ### The concrete column descriptor lists of the three report panels
(`src/unnamed/part_000` lines 114-120, 144-150, 172-177; identical in
`App.jsx`). -/

def loanColumns : List Column :=
  [{ key := "Sl No", header := "Sl No" },
   { key := "Branch Name", header := "Branch Name" },
   { key := "Types of Loan", header := "Types of Loan" },
   { key := "# of Loan", header := "# of Loan", total := true, hasFormat := true },
   { key := "Amount of Loan", header := "Amount of Loan", total := true, hasFormat := true }]

def poultryColumns : List Column :=
  [{ key := "Sl No", header := "Sl No" },
   { key := "Branch Name", header := "Branch Name" },
   { key := "Types of Poultry Rearing", header := "Types of Poultry Rearing" },
   { key := "# of MEs", header := "# of MEs", total := true, hasFormat := true },
   { key := "# of Birds", header := "# of Birds", total := true, hasFormat := true }]

def grantsColumns : List Column :=
  [{ key := "Sl No", header := "Sl No" },
   { key := "Branch Name", header := "Branch Name" },
   { key := "Number on MEs", header := "Number on MEs", total := true, hasFormat := true },
   { key := "Amounts of Grants", header := "Amounts of Grants", total := true, hasFormat := true }]

/-! ### Chart projections (`src/unnamed/part_000` lines 66-74)

Each chart dataset is a `filter` over the displayed rows followed by a
`map` to a plain point object.  `Number(r[k]||0)` coerces a falsy (in
particular missing) field to `0` before conversion; the result is an
`Option Int` whose `none` models NaN from a non-numeric truthy value. -/

/-- `{ branch, type, amount }` for the loan chart. -/
structure LoanPoint where
  branch : JsVal
  type : JsVal
  amount : Option Int
deriving DecidableEq, Repr

/-- `{ branch, type, birds }` for the poultry chart. -/
structure BirdsPoint where
  branch : JsVal
  type : JsVal
  birds : Option Int
deriving DecidableEq, Repr

/-- `{ branch, amount }` for the grants chart. -/
structure GrantsPoint where
  branch : JsVal
  amount : Option Int
deriving DecidableEq, Repr

/-- `loanBase` (line 67): keeps rows whose Branch Name does not end in
`" Total"`, differs from `'Grand Total'`, and whose `'Types of Loan'` field
is truthy. -/
def loanBase (rows : List Row) : List Row :=
  rows.filter fun r =>
    !jsEndsWith (jsToString (getField r "Branch Name")) " Total"
      && !(getField r "Branch Name" == JsVal.vStr "Grand Total")
      && truthy (getField r "Types of Loan")

/-- Projection of one loan row (line 68). -/
def projLoan (r : Row) : LoanPoint :=
  { branch := getField r "Branch Name",
    type := getField r "Types of Loan",
    amount := jsNumber (jsOr (getField r "Amount of Loan") (JsVal.vNum 0)) }

def loanChartData (rows : List Row) : List LoanPoint :=
  (loanBase rows).map projLoan

/-- `birdsBase` (line 70): poultry rows other than the grand-total row. -/
def birdsBase (rows : List Row) : List Row :=
  rows.filter fun r => !(getField r "Branch Name" == JsVal.vStr "Grand Total")

/-- Projection of one poultry row (line 71). -/
def projBirds (r : Row) : BirdsPoint :=
  { branch := getField r "Branch Name",
    type := getField r "Types of Poultry Rearing",
    birds := jsNumber (jsOr (getField r "# of Birds") (JsVal.vNum 0)) }

def birdsChartData (rows : List Row) : List BirdsPoint :=
  (birdsBase rows).map projBirds

/-- `grantsBase` (line 73): grants rows other than the grand-total row. -/
def grantsBase (rows : List Row) : List Row :=
  rows.filter fun r => !(getField r "Branch Name" == JsVal.vStr "Grand Total")

/-- Projection of one grants row (line 74). -/
def projGrants (r : Row) : GrantsPoint :=
  { branch := getField r "Branch Name",
    amount := jsNumber (jsOr (getField r "Amounts of Grants") (JsVal.vNum 0)) }

def grantsChartData (rows : List Row) : List GrantsPoint :=
  (grantsBase rows).map projGrants

/-! ### Fixed-reports loader (`src/unnamed/part_000` lines 6-13)

`useReports` starts from `{ loan: [], poultry: [], grants: [] }` and, on
fetch completion, calls `setData` with the parsed response object — a
wholesale replacement of the state.  A response field is `Option`-typed:
`none` models the key being absent, so that reading it yields `undefined`. -/

structure FixedReports where
  loan? : Option (List Row)
  poultry? : Option (List Row)
  grants? : Option (List Row)
deriving DecidableEq

structure ReportsHook where
  data : FixedReports
  loading : Bool
deriving DecidableEq

/-- `useState({ loan: [], poultry: [], grants: [] })`, `useState(true)`. -/
def initReportsHook : ReportsHook :=
  { data := { loan? := some [], poultry? := some [], grants? := some [] },
    loading := true }

/-- `.then(setData).finally(()=>setLoading(false))` on a successful fetch:
the parsed response replaces `data` as-is, and loading clears. -/
def onFixedFetchSuccess (_st : ReportsHook) (resp : FixedReports) : ReportsHook :=
  { data := resp, loading := false }

/-- Modelled from the spec: "stores the three datasets (defaulting to empty
sequences if absent)" (§4.1).  The store step as the spec describes it, for
comparison with `onFixedFetchSuccess`, which is the code's actual behavior. -/
def storeFixedSpec (_st : ReportsHook) (resp : FixedReports) : ReportsHook :=
  { data := { loan? := some (resp.loan?.getD []),
              poultry? := some (resp.poultry?.getD []),
              grants? := some (resp.grants?.getD []) },
    loading := false }

/-! ### Loan month filter (`src/unnamed/part_000` lines 59-94) -/

structure LoanFilterState where
  loanCustomRows : Option (List Row)
  loanMonth : String
  loanMonthLabel : String
deriving DecidableEq

/-- `useState(null)`, `useState("")`, `useState("")` (lines 59-61). -/
def initLoanFilter : LoanFilterState :=
  { loanCustomRows := none, loanMonth := "", loanMonthLabel := "" }

/-- The query string built by `applyLoanMonth` (lines 78-79): the `month`
parameter is set exactly when `loanMonth` is truthy, i.e. nonempty. -/
def loanRequestQuery (loanMonth : String) : List (String × String) :=
  if truthy (JsVal.vStr loanMonth) then [("month", loanMonth)] else []

/-- The month-endpoint response `{ rows: [...], month_label: string }`;
`none` models an absent field. -/
structure LoanResponse where
  rows? : Option (List Row)
  monthLabel? : Option String
deriving DecidableEq

/-- The outcome of `await fetch(url).then(r=>r.json())`: a parsed response,
or a raised error (network or JSON failure). -/
inductive FetchResult where
  | ok (resp : LoanResponse) : FetchResult
  | err : FetchResult
deriving DecidableEq

/-- `applyLoanMonth` (lines 76-88): on success, `setLoanCustomRows(resp.rows
|| [])` and `setLoanMonthLabel(resp.month_label || "")`; on a raised error,
`console.error` (diagnostics only — no state records it) then
`setLoanCustomRows(null)` and `setLoanMonthLabel("")`.  `loanMonth` is
untouched either way. -/
def applyLoanMonth (st : LoanFilterState) (res : FetchResult) : LoanFilterState :=
  match res with
  | FetchResult.ok resp =>
    { st with loanCustomRows := some (resp.rows?.getD []),
              loanMonthLabel := resp.monthLabel?.getD "" }
  | FetchResult.err =>
    { st with loanCustomRows := none, loanMonthLabel := "" }

/-- `clearLoanMonth` (lines 90-94). -/
def clearLoanMonth (_st : LoanFilterState) : LoanFilterState :=
  { loanCustomRows := none, loanMonth := "", loanMonthLabel := "" }

/-- `setLoanMonth(e.target.value)` from the month input (line 104). -/
def setLoanMonth (st : LoanFilterState) (m : String) : LoanFilterState :=
  { st with loanMonth := m }

/-- `const loanRows = loanCustomRows ?? loan` (line 66): the override rows
when present, the fixed loan dataset otherwise. -/
def loanRowsShown (fixedLoan : List Row) (st : LoanFilterState) : List Row :=
  st.loanCustomRows.getD fixedLoan

/-- The user-triggerable events of the month-filter flow. -/
inductive FilterEvent where
  | setMonth (m : String) : FilterEvent
  | apply (res : FetchResult) : FilterEvent
  | clear : FilterEvent

def stepFilter (st : LoanFilterState) : FilterEvent → LoanFilterState
  | FilterEvent.setMonth m => setLoanMonth st m
  | FilterEvent.apply res => applyLoanMonth st res
  | FilterEvent.clear => clearLoanMonth st

def runFilter (st : LoanFilterState) (es : List FilterEvent) : LoanFilterState :=
  es.foldl stepFilter st

/-- A month-filter state reachable from the initial state by user events. -/
def ReachableFilter (st : LoanFilterState) : Prop :=
  ∃ es : List FilterEvent, runFilter initLoanFilter es = st

/-! ### `App` render pipeline over the loader state (`part_000` lines 57-74)

`const { loan, poultry, grants } = useReports()` destructures the stored
data; when a dataset is `undefined` (absent key after a wholesale
`setData`), the subsequent `.filter` call on it raises a `TypeError`,
modelled as `Except.error`. -/

/-- `.filter`/`.map` on a possibly-`undefined` array: raises on `undefined`. -/
def requireArray (rows? : Option (List Row)) : Except Unit (List Row) :=
  match rows? with
  | some rows => Except.ok rows
  | none => Except.error ()

/-- The chart datasets derived on each render of `App` (lines 66-74),
propagating the `TypeError` raised by filtering an `undefined` dataset.
The loan rows pass through `loanCustomRows ?? loan` first (line 66), so a
present override shields an absent fixed loan dataset. -/
def appDerivedCharts (data : FixedReports) (st : LoanFilterState) :
    Except Unit (List LoanPoint × List BirdsPoint × List GrantsPoint) := do
  let loanRows ← requireArray
    (match st.loanCustomRows with
     | some custom => some custom
     | none => data.loan?)
  let poultry ← requireArray data.poultry?
  let grants ← requireArray data.grants?
  Except.ok (loanChartData loanRows, birdsChartData poultry, grantsChartData grants)

/-- The loan panel's table (lines 109-121): rendered from the shown loan
rows with `showFooterTotals={false}`. -/
def loanTableView (fixedLoan : List Row) (st : LoanFilterState) : TableView :=
  renderDataTable (loanRowsShown fixedLoan st) loanColumns false

/-- The poultry panel's table (lines 141-151): `showFooterTotals` is left
at its default `true`. -/
def poultryTableView (rows : List Row) : TableView :=
  renderDataTable rows poultryColumns true

/-- The grants panel's table (lines 169-178): `showFooterTotals` is left at
its default `true`. -/
def grantsTableView (rows : List Row) : TableView :=
  renderDataTable rows grantsColumns true

/-! ## Helper lemmas -/

/-- The background of a row's style, unfolded. -/
theorem rowStyle_background (r : Row) :
    (rowStyle r).background =
      if jsEndsWith (jsToString (getField r "Branch Name")) " Total" then
        some "#fffbe6"
      else if getField r "Branch Name" = JsVal.vStr "Grand Total" then
        some "#dcfce7"
      else none := rfl

/-- A rendered table with the footer suppressed carries no footer,
whatever the rows and columns. -/
theorem viewFooter_renderDataTable_false (rows : List Row) (columns : List Column) :
    viewFooter (renderDataTable rows columns false) = none := by
  unfold renderDataTable
  by_cases h : rows.isEmpty
  · simp [h, viewFooter]
  · simp [h, viewFooter]

/-- For a summable column whose key's first-row value is a number, the
totals object resolves the column's key to its column sum — also in the
presence of other columns sharing the key, since every stored entry for a
key carries the same sum. -/
theorem lookup_computeTotals (r0 : Row) (tl : List Row) (c : Column)
    (ht : c.total = true) (hn : isNumber (getField r0 c.key) = true)
    (columns : List Column) (hmem : c ∈ columns) :
    List.lookup c.key (computeTotals (r0 :: tl) columns)
      = some (sumColumn (r0 :: tl) c.key) := by
  show List.lookup c.key (List.filterMap (fun c' =>
      if c'.total && isNumber (getField r0 c'.key) then
        some (c'.key, sumColumn (r0 :: tl) c'.key)
      else none) columns) = some (sumColumn (r0 :: tl) c.key)
  induction hmem with
  | head rest =>
    simp [List.filterMap_cons, ht, hn]
  | tail c' hmem ih =>
    by_cases hcond : (c'.total && isNumber (getField r0 c'.key)) = true
    · simp only [List.filterMap_cons, hcond, if_true]
      by_cases hkey : c.key = c'.key
      · simp [List.lookup_cons, hkey]
      · have hbeq : (c.key == c'.key) = false := beq_eq_false_iff_ne.mpr hkey
        simp only [List.lookup_cons, hbeq]
        exact ih
    · have hcond' : (c'.total && isNumber (getField r0 c'.key)) = false :=
        Bool.eq_false_iff.mpr hcond
      simp only [List.filterMap_cons, hcond']
      exact ih

/-! ## The claims -/

/-- C1 counterexample: in the poultry table the column `# of MEs` is
flagged summable and the claimed footer total for the single row
`{"# of MEs": "5"}` is `Number("5")||0 = 5`, yet the rendered view carries
no footer at all — the code computes a total only when the first row's
value is of number type, and here it is a string. -/
theorem C1_counterexample :
    (poultryColumns.map fun c => (c.key, c.total)) =
      [("Sl No", false), ("Branch Name", false),
       ("Types of Poultry Rearing", false), ("# of MEs", true),
       ("# of Birds", true)] ∧
    sumColumn [[("# of MEs", JsVal.vStr "5")]] "# of MEs" = 5 ∧
    viewFooter (renderDataTable [[("# of MEs", JsVal.vStr "5")]]
        poultryColumns true) = none := by
  refine ⟨by decide, by decide, by decide⟩

/-- C1 amended: for a nonempty row set, a column flagged summable whose
first-row value is a number gets the footer total Σ Number(r[C])||0 over
all rows; a column not flagged summable gets an empty footer cell; and the
footer row is rendered exactly when at least one total was computed. -/
theorem C1_amended_footer_totals (r0 : Row) (tl : List Row)
    (columns : List Column) (i : Nat) (c : Column)
    (hc : columns[i]? = some c) :
    (c.total = true → isNumber (getField r0 c.key) = true →
      List.lookup c.key (computeTotals (r0 :: tl) columns)
          = some (sumColumn (r0 :: tl) c.key) ∧
      (footerCells (computeTotals (r0 :: tl) columns) columns)[i]?
          = some (FooterCell.val (some (sumColumn (r0 :: tl) c.key)))) ∧
    (c.total = false →
      (footerCells (computeTotals (r0 :: tl) columns) columns)[i]?
          = some FooterCell.blank) ∧
    (computeTotals (r0 :: tl) columns = [] →
      viewFooter (renderDataTable (r0 :: tl) columns true) = none) ∧
    (computeTotals (r0 :: tl) columns ≠ [] →
      viewFooter (renderDataTable (r0 :: tl) columns true)
          = some (footerCells (computeTotals (r0 :: tl) columns) columns)) := by
  refine ⟨fun ht hn => ?_, fun ht => ?_, fun hz => ?_, fun hz => ?_⟩
  · have hl := lookup_computeTotals r0 tl c ht hn columns (List.getElem?_mem hc)
    refine ⟨hl, ?_⟩
    unfold footerCells
    rw [List.getElem?_map, hc, Option.map_some', if_pos ht, hl]
  · unfold footerCells
    rw [List.getElem?_map, hc, Option.map_some', if_neg (by rw [ht]; exact Bool.false_ne_true)]
  · simp [renderDataTable, viewFooter, hz]
  · rcases h : computeTotals (r0 :: tl) columns with _ | ⟨e, t⟩
    · exact absurd h hz
    · simp [renderDataTable, viewFooter, h]

/-- Witness for C1 amended at a two-row poultry dataset: the summable
column `# of MEs` with numeric first-row value gets the footer total, and
the total evaluates to the sum 5. -/
theorem C1_amended_footer_totals_witness :
    List.lookup "# of MEs" (computeTotals
        [[("# of MEs", JsVal.vNum 2)], [("# of MEs", JsVal.vNum 3)]]
        poultryColumns)
      = some (sumColumn
          [[("# of MEs", JsVal.vNum 2)], [("# of MEs", JsVal.vNum 3)]]
          "# of MEs") ∧
    sumColumn [[("# of MEs", JsVal.vNum 2)], [("# of MEs", JsVal.vNum 3)]]
        "# of MEs" = 5 :=
  ⟨((C1_amended_footer_totals [("# of MEs", JsVal.vNum 2)]
      [[("# of MEs", JsVal.vNum 3)]] poultryColumns 3
      { key := "# of MEs", header := "# of MEs", total := true, hasFormat := true }
      (by decide)).1 rfl rfl).1,
   by decide⟩

/-- C3: every chart base excludes the row whose Branch Name is exactly
`"Grand Total"`; the loan base additionally excludes rows whose Branch Name
ends in `" Total"` and rows whose loan-type field is falsy (empty or
missing); and in each projection a missing numeric field is coerced to 0. -/
theorem C3_chart_projection (loanRows poultryRows grantsRows : List Row) :
    (∀ r : Row, r ∈ loanBase loanRows ↔ r ∈ loanRows ∧
      jsEndsWith (jsToString (getField r "Branch Name")) " Total" = false ∧
      ¬(getField r "Branch Name" = JsVal.vStr "Grand Total") ∧
      truthy (getField r "Types of Loan") = true) ∧
    (∀ r : Row, r ∈ birdsBase poultryRows ↔ r ∈ poultryRows ∧
      ¬(getField r "Branch Name" = JsVal.vStr "Grand Total")) ∧
    (∀ r : Row, r ∈ grantsBase grantsRows ↔ r ∈ grantsRows ∧
      ¬(getField r "Branch Name" = JsVal.vStr "Grand Total")) ∧
    (∀ r : Row, getField r "Amount of Loan" = JsVal.vUndef →
      (projLoan r).amount = some 0) ∧
    (∀ r : Row, getField r "# of Birds" = JsVal.vUndef →
      (projBirds r).birds = some 0) ∧
    (∀ r : Row, getField r "Amounts of Grants" = JsVal.vUndef →
      (projGrants r).amount = some 0) := by
  refine ⟨fun r => ?_, fun r => ?_, fun r => ?_,
    fun r h => ?_, fun r h => ?_, fun r h => ?_⟩
  · simp [loanBase, List.mem_filter, and_assoc]
  · simp [birdsBase, List.mem_filter]
  · simp [grantsBase, List.mem_filter]
  · show jsNumber (jsOr (getField r "Amount of Loan") (JsVal.vNum 0)) = some 0
    rw [h]; rfl
  · show jsNumber (jsOr (getField r "# of Birds") (JsVal.vNum 0)) = some 0
    rw [h]; rfl
  · show jsNumber (jsOr (getField r "Amounts of Grants") (JsVal.vNum 0)) = some 0
    rw [h]; rfl

/-- Witness for C3: an ordinary branch row is kept by the poultry chart
base, and a loan row with no `Amount of Loan` field projects to amount 0. -/
theorem C3_chart_projection_witness :
    ([("Branch Name", JsVal.vStr "A")] : Row) ∈
      birdsBase [[("Branch Name", JsVal.vStr "A")]] ∧
    (projLoan [("Branch Name", JsVal.vStr "A")]).amount = some 0 :=
  ⟨((C3_chart_projection [] [[("Branch Name", JsVal.vStr "A")]] []).2.1
      [("Branch Name", JsVal.vStr "A")]).mpr
      ⟨List.mem_singleton.mpr rfl, by decide⟩,
   (C3_chart_projection [] [] []).2.2.2.1 [("Branch Name", JsVal.vStr "A")] rfl⟩

/-- C2: the claim says rows with Branch Name exactly `"Grand Total"` get a
distinct grand-total highlight plus bold, and only rows ending in
`" Total"` other than `"Grand Total"` get the subtotal highlight.  The code
checks `endsWith(' Total')` first, and `"Grand Total"` itself ends with
`" Total"`, so the `#dcfce7` grand-total background branch is unreachable:
a Grand Total row receives the subtotal background `#fffbe6` together with
font weight 800, a subtotal row the same background without the bold, an
ordinary row neither, and no row ever receives the `#dcfce7` background. -/
theorem C2_grand_total_marker :
    rowStyle [("Branch Name", JsVal.vStr "Grand Total")] =
      { background := some "#fffbe6", fontWeight := some 800 } ∧
    rowStyle [("Branch Name", JsVal.vStr "Branch A Total")] =
      { background := some "#fffbe6", fontWeight := none } ∧
    rowStyle [("Branch Name", JsVal.vStr "Branch A")] =
      { background := none, fontWeight := none } ∧
    ∀ r : Row, (rowStyle r).background = none ∨
      (rowStyle r).background = some "#fffbe6" := by
  refine ⟨by decide, by decide, by decide, fun r => ?_⟩
  rw [rowStyle_background r]
  by_cases h1 : jsEndsWith (jsToString (getField r "Branch Name")) " Total" = true
  · rw [if_pos h1]; exact Or.inr rfl
  · rw [if_neg h1]
    by_cases h2 : getField r "Branch Name" = JsVal.vStr "Grand Total"
    · exact absurd (by rw [h2]; decide) h1
    · rw [if_neg h2]; exact Or.inl rfl

/-- C4: invoking clear after any finite sequence of apply operations (with
any responses) restores the loan panel to the fixed loan rows, resets the
month selector and clears the month label; indeed clear sends every filter
state back to the initial one. -/
theorem C4_clear_restores_fixed (fixedLoan : List Row) (results : List FetchResult) :
    loanRowsShown fixedLoan
        (clearLoanMonth (List.foldl applyLoanMonth initLoanFilter results)) = fixedLoan ∧
    (clearLoanMonth (List.foldl applyLoanMonth initLoanFilter results)).loanMonth = "" ∧
    (clearLoanMonth (List.foldl applyLoanMonth initLoanFilter results)).loanMonthLabel = "" ∧
    ∀ st : LoanFilterState, clearLoanMonth st = initLoanFilter :=
  ⟨rfl, rfl, rfl, fun _ => rfl⟩

/-- C5: when the apply request fails, the override row set is cleared — so
the loan panel shows the fixed loan dataset again — and the month label is
cleared; the month selector is untouched and no state field records the
error (it is only logged). -/
theorem C5_apply_failure_failsafe (fixedLoan : List Row) (st : LoanFilterState) :
    (applyLoanMonth st FetchResult.err).loanCustomRows = none ∧
    loanRowsShown fixedLoan (applyLoanMonth st FetchResult.err) = fixedLoan ∧
    (applyLoanMonth st FetchResult.err).loanMonthLabel = "" ∧
    (applyLoanMonth st FetchResult.err).loanMonth = st.loanMonth :=
  ⟨rfl, rfl, rfl, rfl⟩

/-- C9: an empty row sequence renders the "No data" placeholder — no table
body, no totals footer — for any columns and footer flag; with all three
datasets empty each panel shows the placeholder and every chart dataset is
empty. -/
theorem C9_empty_rows_placeholder :
    (∀ (columns : List Column) (b : Bool),
      renderDataTable [] columns b = TableView.noData) ∧
    loanTableView [] initLoanFilter = TableView.noData ∧
    poultryTableView [] = TableView.noData ∧
    grantsTableView [] = TableView.noData ∧
    loanChartData [] = [] ∧ birdsChartData [] = [] ∧ grantsChartData [] = [] :=
  ⟨fun _ _ => rfl, rfl, rfl, rfl, rfl, rfl, rfl⟩

/-- C6: a successful apply sets the `month` query parameter exactly when the
selected month is nonempty, replaces the override row set with the
response's `rows` field (an empty sequence when the field is absent), and
records the response's `month_label` (empty when absent). -/
theorem C6_apply_success (m : String) (st : LoanFilterState) (resp : LoanResponse) :
    (m = "" → loanRequestQuery m = []) ∧
    (m ≠ "" → loanRequestQuery m = [("month", m)]) ∧
    (applyLoanMonth st (FetchResult.ok resp)).loanCustomRows
      = some (resp.rows?.getD []) ∧
    (applyLoanMonth st (FetchResult.ok resp)).loanMonthLabel
      = resp.monthLabel?.getD "" := by
  refine ⟨fun h => ?_, fun h => ?_, rfl, rfl⟩
  · rw [h]; rfl
  · have hb : (m != "") = true := by simpa using h
    simp [loanRequestQuery, truthy, hb]

/-- Witness for C6 at the spec's worked example: applying month
`"2024-05"` sends the month parameter, and a response with no `rows` field
installs an empty override. -/
theorem C6_apply_success_witness :
    loanRequestQuery "2024-05" = [("month", "2024-05")] ∧
    (applyLoanMonth initLoanFilter
        (FetchResult.ok { rows? := none, monthLabel? := some "May 2024" })).loanCustomRows
      = some [] :=
  ⟨(C6_apply_success "2024-05" initLoanFilter
      { rows? := none, monthLabel? := some "May 2024" }).2.1 (by decide),
   (C6_apply_success "2024-05" initLoanFilter
      { rows? := none, monthLabel? := some "May 2024" }).2.2.1⟩

/-- C7: in every reachable month-filter state the loan panel shows exactly
one of the two datasets — the override rows when the override is present
(fully replacing the fixed rows), and the fixed rows when it is absent. -/
theorem C7_display_exclusive (fixedLoan : List Row) (st : LoanFilterState)
    (_h : ReachableFilter st) :
    (∀ custom : List Row, st.loanCustomRows = some custom →
      loanRowsShown fixedLoan st = custom) ∧
    (st.loanCustomRows = none → loanRowsShown fixedLoan st = fixedLoan) := by
  refine ⟨fun custom hc => ?_, fun hn => ?_⟩
  · unfold loanRowsShown; rw [hc]; rfl
  · unfold loanRowsShown; rw [hn]; rfl

/-- Witness for C7 at the initial state (reachable by the empty event
sequence), where no override is present and the fixed rows show. -/
theorem C7_display_exclusive_witness :
    loanRowsShown [[("Branch Name", JsVal.vStr "A")]] initLoanFilter
      = [[("Branch Name", JsVal.vStr "A")]] :=
  (C7_display_exclusive [[("Branch Name", JsVal.vStr "A")]] initLoanFilter
      ⟨[], rfl⟩).2 rfl

/-- C8 counterexample: a fixed-reports response omitting the `poultry` and
`grants` keys is stored as-is by `setData` — the absent datasets are left
`undefined`, not defaulted to empty sequences as the spec-modelled store
would do — and the subsequent chart derivation raises a TypeError when it
filters the `undefined` dataset. -/
theorem C8_counterexample :
    (onFixedFetchSuccess initReportsHook
        { loan? := some [], poultry? := none, grants? := none }).data.poultry? = none ∧
    (storeFixedSpec initReportsHook
        { loan? := some [], poultry? := none, grants? := none }).data.poultry? = some [] ∧
    appDerivedCharts
        (onFixedFetchSuccess initReportsHook
          { loan? := some [], poultry? := none, grants? := none }).data
        initLoanFilter = Except.error () :=
  ⟨rfl, rfl, rfl⟩

/-- C8 amended: the pre-fetch loader state defaults the three datasets to
empty sequences, but fetch completion replaces the stored data wholesale
with the parsed response — no per-key defaulting — and clears the loading
flag; rendering is raise-free exactly for responses carrying all three
keys: with all present the chart derivation succeeds, while a response
omitting a key leaves that dataset undefined and the derivation raises. -/
theorem C8_amended_loader (resp : FixedReports) (loan poultry grants : List Row) :
    initReportsHook.data
      = { loan? := some [], poultry? := some [], grants? := some [] } ∧
    initReportsHook.loading = true ∧
    (onFixedFetchSuccess initReportsHook resp).data = resp ∧
    (onFixedFetchSuccess initReportsHook resp).loading = false ∧
    appDerivedCharts
        { loan? := some loan, poultry? := some poultry, grants? := some grants }
        initLoanFilter
      = Except.ok (loanChartData loan, birdsChartData poultry, grantsChartData grants) ∧
    appDerivedCharts { loan? := some loan, poultry? := none, grants? := some grants }
        initLoanFilter = Except.error () :=
  ⟨rfl, rfl, rfl, rfl, rfl, rfl⟩

/-- C10: the month-filter version's loan table is invoked with
`showFooterTotals={false}`, so whatever loan rows are shown — fixed or
custom — its rendered view carries no totals footer, although both the
`# of Loan` and `Amount of Loan` columns are flagged summable; the poultry
and grants tables are invoked with the flag at its default `true` and do
render their totals footers. -/
theorem C10_loan_footer_suppressed :
    (∀ (fixedLoan : List Row) (st : LoanFilterState),
      viewFooter (loanTableView fixedLoan st) = none) ∧
    (loanColumns.filter (fun c => c.total)).map Column.key
      = ["# of Loan", "Amount of Loan"] ∧
    viewFooter (poultryTableView
        [[("# of MEs", JsVal.vNum 2), ("# of Birds", JsVal.vNum 10)]])
      = some [FooterCell.blank, FooterCell.blank, FooterCell.blank,
              FooterCell.val (some 2), FooterCell.val (some 10)] ∧
    viewFooter (grantsTableView
        [[("Number on MEs", JsVal.vNum 3), ("Amounts of Grants", JsVal.vNum 500)]])
      = some [FooterCell.blank, FooterCell.blank,
              FooterCell.val (some 3), FooterCell.val (some 500)] :=
  ⟨fun fixedLoan st => viewFooter_renderDataTable_false (loanRowsShown fixedLoan st) loanColumns,
   by decide, by decide, by decide⟩

end PidimSmart
